import Mathlib

/-!
# Verification of the cost-aware query gateway

Shallow embedding of the cost-control subsystem of the analytics repository:
`src/cost_monitor.py` (CostMonitor), `src/query_optimizer.py` (QueryCache and
QueryOptimizer) and the cost-control portion of `src/bigquery_optimized.py`
(OptimizedBigQueryManager).

Modelling conventions:
* Python `float` money values are modelled as exact rationals (`ℚ`); byte
  counts (Python arbitrary-precision `int`) as `ℤ`; query counters as `ℕ`.
* Wall-clock time (`datetime.now()`) is passed explicitly as an integer
  timestamp in seconds; `timedelta(seconds=ttl)` becomes integer addition.
* Python strings are modelled as Lean `String`; `str.upper()`, the `in`
  substring test and `str.replace` are re-implemented below on `List Char`
  with the semantics of Python (ASCII case mapping, all non-overlapping
  occurrences replaced left to right without rescanning the replacement).
* Stateful methods become pure functions from an explicit state record to a
  value/state pair; Python exceptions become `Except String`.
-/

namespace PyStr

/-- The test `leadsWith pat l` is true when `pat` is an initial segment of `l`
(the prefix test behind Python substring search). -/
def leadsWith : List Char → List Char → Bool
  | [], _ => true
  | _ :: _, [] => false
  | p :: ps, c :: cs => p = c && leadsWith ps cs

/-- The test `hasSub pat l` models Python `pat in l`: `pat` occurs as a contiguous
substring of `l` (the empty pattern occurs in every string). -/
def hasSub (pat : List Char) : List Char → Bool
  | [] => leadsWith pat []
  | c :: rest => leadsWith pat (c :: rest) || hasSub pat rest

/-- The function `pyReplace old new l` models Python `l.replace(old, new)`: every
non-overlapping occurrence of `old`, scanned left to right, is replaced by
`new`; the replacement text is never rescanned.  (Python inserts `new`
between all characters when `old` is empty; the sources only ever call
`replace` with non-empty literals, and for an empty `old` this model
returns the input unchanged.) -/
def pyReplace (old new : List Char) : List Char → List Char
  | [] => []
  | c :: rest =>
    if old ≠ [] ∧ leadsWith old (c :: rest) then
      new ++ pyReplace old new (List.drop (old.length - 1) rest)
    else
      c :: pyReplace old new rest
termination_by l => l.length
decreasing_by
  · simp only [List.length_drop, List.length_cons]
    omega
  · simp only [List.length_cons]
    omega

/-- Python `str.upper()` restricted to ASCII (every query literal in the
sources is ASCII). -/
def upperStr (s : String) : String := String.mk (s.data.map Char.toUpper)

/-- Python `sub in s` on strings. -/
def containsStr (s sub : String) : Bool := hasSub sub.data s.data

/-- Python `s.replace(old, new)` on strings. -/
def replaceStr (s old new : String) : String :=
  String.mk (pyReplace old.data new.data s.data)

end PyStr

namespace CostMon

/-- Alert severity levels (`AlertSeverity` enum in `cost_monitor.py`). -/
inductive AlertSeverity where
  | info
  | warning
  | critical
  | emergency
deriving DecidableEq, Repr

/-- Cost thresholds and limits (`CostThresholds` dataclass).  Money values
are rationals (exact model of the Python floats), byte limits are integers,
query-count limits are naturals. -/
structure CostThresholds where
  hourly_limit : ℚ
  daily_limit : ℚ
  monthly_limit : ℚ
  query_cost_warning : ℚ
  query_cost_limit : ℚ
  bytes_per_query_limit : ℤ
  queries_per_hour_limit : ℕ
  queries_per_day_limit : ℕ
deriving DecidableEq, Repr

/-- The dataclass field defaults: $0.25/hour, $5/day, $150/month, warn at
$0.10, block at $1.00 per query, 100 MB per query, 100 queries/hour,
1000 queries/day. -/
def defaultThresholds : CostThresholds :=
  { hourly_limit := 1 / 4
    daily_limit := 5
    monthly_limit := 150
    query_cost_warning := 1 / 10
    query_cost_limit := 1
    bytes_per_query_limit := 100000000
    queries_per_hour_limit := 100
    queries_per_day_limit := 1000 }

/-- Mutable state of a `CostMonitor` instance: the thresholds set in
`__init__` plus the usage counters and the emergency-stop flag.  (The
`cost_cache` field and the optional BigQuery manager back-reference play no
part in any of the methods modelled here.) -/
structure MonitorState where
  thresholds : CostThresholds
  current_hour_queries : ℕ
  current_day_queries : ℕ
  current_day_cost : ℚ
  current_month_cost : ℚ
  emergency_stop : Bool
deriving DecidableEq, Repr

/-- State after `CostMonitor.__init__`: default thresholds, all counters
zero, emergency stop off. -/
def initialState : MonitorState :=
  { thresholds := defaultThresholds
    current_hour_queries := 0
    current_day_queries := 0
    current_day_cost := 0
    current_month_cost := 0
    emergency_stop := false }

/-- Which branch of `check_query_cost` produced the returned dict. -/
inductive CheckReason where
  | costLimit
  | bytesLimit
  | dailyBudget
  | highCostWarning
  | ok
deriving DecidableEq, Repr

/-- The dict returned by `check_query_cost`: approval flag, severity, and
the branch that produced it (standing in for the formatted reason/warning
strings). -/
structure CheckResult where
  approved : Bool
  severity : AlertSeverity
  reason : CheckReason
deriving DecidableEq, Repr

/-- The estimate `estimated_cost = (bytes_to_process / 1_000_000_000_000) * 5.00`
($5 per TB), float arithmetic modelled exactly on `ℚ`. -/
def estimatedCost (bytes_to_process : ℤ) : ℚ :=
  (bytes_to_process : ℚ) / 1000000000000 * 5

/-- Embedding of `CostMonitor.check_query_cost` (`cost_monitor.py` lines 76-123): the
pre-execution approval decision.  Note that the method reads the
thresholds and `current_day_cost` but never reads `emergency_stop`. -/
def check_query_cost (st : MonitorState) (bytes_to_process : ℤ) : CheckResult :=
  if estimatedCost bytes_to_process > st.thresholds.query_cost_limit then
    { approved := false, severity := .critical, reason := .costLimit }
  else if bytes_to_process > st.thresholds.bytes_per_query_limit then
    { approved := false, severity := .critical, reason := .bytesLimit }
  else if st.current_day_cost + estimatedCost bytes_to_process
      > st.thresholds.daily_limit then
    { approved := false, severity := .critical, reason := .dailyBudget }
  else if estimatedCost bytes_to_process > st.thresholds.query_cost_warning then
    { approved := true, severity := .warning, reason := .highCostWarning }
  else
    { approved := true, severity := .info, reason := .ok }

/-- Alert kinds raised by `_check_limits`. -/
inductive AlertKind where
  | hourly_query_limit
  | daily_query_limit
  | daily_cost_limit
  | monthly_cost_limit
deriving DecidableEq, Repr

/-- One alert dict (`type` plus `severity`; the formatted message string is
determined by the kind and the counters). -/
structure Alert where
  kind : AlertKind
  severity : AlertSeverity
deriving DecidableEq, Repr

/-- Embedding of `CostMonitor._check_limits`: evaluates all post-hoc limits, collects
alerts in source order, and sets `emergency_stop` when the daily query
count, the daily cost, or the monthly cost limit is exceeded (the hourly
query limit only warns).  The flag is only ever set here, never cleared. -/
def check_limits (st : MonitorState) : MonitorState × List Alert :=
  let hourlyAlerts : List Alert :=
    if st.current_hour_queries > st.thresholds.queries_per_hour_limit then
      [{ kind := .hourly_query_limit, severity := .warning }]
    else []
  let dailyQ : Bool := st.current_day_queries > st.thresholds.queries_per_day_limit
  let dailyC : Bool := st.current_day_cost > st.thresholds.daily_limit
  let monthlyC : Bool := st.current_month_cost > st.thresholds.monthly_limit
  let alerts := hourlyAlerts
    ++ (if dailyQ then [{ kind := .daily_query_limit, severity := .critical }] else [])
    ++ (if dailyC then [{ kind := .daily_cost_limit, severity := .emergency }] else [])
    ++ (if monthlyC then [{ kind := .monthly_cost_limit, severity := .emergency }] else [])
  ({ st with emergency_stop := st.emergency_stop || dailyQ || dailyC || monthlyC }, alerts)

/-- Embedding of `CostMonitor.update_usage` (`cost_monitor.py` lines 125-139):
unconditionally bumps the hour/day query counters and the day/month cost
counters, then runs `_check_limits`.  The `bytes_processed` argument is
accepted but never used by the method body. -/
def update_usage (st : MonitorState) (bytes_processed : ℤ) (cost : ℚ) :
    MonitorState × List Alert :=
  check_limits
    { st with
      current_hour_queries := st.current_hour_queries + 1
      current_day_queries := st.current_day_queries + 1
      current_day_cost := st.current_day_cost + cost
      current_month_cost := st.current_month_cost + cost }

/-- Embedding of `CostMonitor.reset_hourly_counters`. -/
def reset_hourly_counters (st : MonitorState) : MonitorState :=
  { st with current_hour_queries := 0 }

/-- Embedding of `CostMonitor.reset_daily_counters` (`cost_monitor.py` lines 346-351):
zeroes the daily counters and unconditionally clears `emergency_stop`. -/
def reset_daily_counters (st : MonitorState) : MonitorState :=
  { st with
    current_day_queries := 0
    current_day_cost := 0
    emergency_stop := false }

/-- Embedding of `CostMonitor.reset_monthly_counters` (`cost_monitor.py` lines 353-356):
zeroes the monthly cost counter only; the emergency-stop flag is left
untouched. -/
def reset_monthly_counters (st : MonitorState) : MonitorState :=
  { st with current_month_cost := 0 }

end CostMon

namespace QueryOpt

open PyStr

/-- Parameter maps (`params: Dict`) are modelled as association lists of
string key/value pairs; `None` as `Option.none`. -/
def Params : Type := List (String × String)

instance : DecidableEq Params := by
  unfold Params
  infer_instance

/-- Cache keys.  The source computes
`hashlib.md5((query + json.dumps(params or {}, sort_keys=True)).encode()).hexdigest()`;
the digest is modelled by its (injective, up to md5 collisions) pre-image:
the query text paired with the parameter list (`params or {}` sends `None`
to the empty map). -/
def CacheKey : Type := String × Params

instance : DecidableEq CacheKey := by
  unfold CacheKey
  infer_instance

/-- Embedding of `QueryCache.get_cache_key`. -/
def get_cache_key (query : String) (params : Option Params) : CacheKey :=
  (query, params.getD [])

/-- One cache entry dict: cached payload (opaque to the cache; modelled as
a string), expiry timestamp, first 100 characters of the query, and the
creation timestamp. -/
structure Entry where
  data : String
  expires : ℤ
  query_head : String
  cached_at : ℤ
deriving DecidableEq, Repr

/-- State of a `QueryCache` instance: the entry dict (as an insertion-order
association list), the default TTL (3600 s unless overridden at
construction), and the hit/miss counters. -/
structure CacheState where
  cache : List (CacheKey × Entry)
  default_ttl : ℤ
  hit_count : ℕ
  miss_count : ℕ
deriving DecidableEq

/-- State after `QueryCache.__init__()` with the default argument. -/
def initialCache : CacheState :=
  { cache := [], default_ttl := 3600, hit_count := 0, miss_count := 0 }

/-- Python dict lookup on the association list. -/
def findEntry : List (CacheKey × Entry) → CacheKey → Option Entry
  | [], _ => none
  | kv :: rest, k => if kv.1 = k then some kv.2 else findEntry rest k

/-- Python `del d[k]` (removes the binding when present). -/
def eraseKey : List (CacheKey × Entry) → CacheKey → List (CacheKey × Entry)
  | [], _ => []
  | kv :: rest, k => if kv.1 = k then rest else kv :: eraseKey rest k

/-- Python `d[k] = v`: overwrite in place, or append a new binding. -/
def insertKey : List (CacheKey × Entry) → CacheKey → Entry → List (CacheKey × Entry)
  | [], k, e => [(k, e)]
  | kv :: rest, k, e => if kv.1 = k then (k, e) :: rest else kv :: insertKey rest k e

/-- Embedding of `QueryCache.get` (`query_optimizer.py` lines 38-53), with
`datetime.now()` passed in as `now`: returns the cached payload on an
unexpired hit (bumping `hit_count`); an expired entry is deleted and the
lookup falls through to a miss; every non-hit bumps `miss_count`. -/
def cacheGet (st : CacheState) (query : String) (params : Option Params)
    (now : ℤ) : Option String × CacheState :=
  let key := get_cache_key query params
  match findEntry st.cache key with
  | some entry =>
    if now < entry.expires then
      (some entry.data, { st with hit_count := st.hit_count + 1 })
    else
      (none, { st with cache := eraseKey st.cache key, miss_count := st.miss_count + 1 })
  | none => (none, { st with miss_count := st.miss_count + 1 })

/-- Embedding of `QueryCache.set` (`query_optimizer.py` lines 55-65).  The source runs
`ttl = ttl or self.default_ttl`: a `None` **or zero** TTL argument falls
back to the default. -/
def cacheSet (st : CacheState) (query : String) (data : String)
    (ttl : Option ℤ) (params : Option Params) (now : ℤ) : CacheState :=
  let key := get_cache_key query params
  let ttlEff : ℤ :=
    match ttl with
    | none => st.default_ttl
    | some v => if v = 0 then st.default_ttl else v
  { st with
    cache := insertKey st.cache key
      { data := data
        expires := now + ttlEff
        query_head := String.mk (query.data.take 100)
        cached_at := now } }

/-- Embedding of `QueryCache.clear_expired`: drops every entry whose expiry has passed
(`now >= expires`). -/
def clear_expired (st : CacheState) (now : ℤ) : CacheState :=
  { st with cache := st.cache.filter (fun kv => now < kv.2.expires) }

/-- Embedding of `QueryCache.get_hit_rate` (`query_optimizer.py` lines 78-83): the hit
**percentage** `hits / (hits + misses) * 100`, and `0.0` before any
lookup. -/
def get_hit_rate (st : CacheState) : ℚ :=
  let total := st.hit_count + st.miss_count
  if total = 0 then 0
  else ((st.hit_count : ℚ) / (total : ℚ)) * 100

/-- The dict returned by `QueryCache.get_stats`.  `memory_estimate`
(`sum(len(str(v)) for v in cache.values())`) is abstracted to the summed
payload lengths; the other four fields are exact. -/
structure Stats where
  entries : ℕ
  hits : ℕ
  misses : ℕ
  hit_rate : ℚ
  memory_estimate : ℕ
deriving DecidableEq

/-- Embedding of `QueryCache.get_stats` (`query_optimizer.py` lines 85-93). -/
def get_stats (st : CacheState) : Stats :=
  { entries := st.cache.length
    hits := st.hit_count
    misses := st.miss_count
    hit_rate := get_hit_rate st
    memory_estimate := (st.cache.map (fun kv => kv.2.data.length)).sum }

/-! Pattern and replacement literals used by the optimization rules. -/

def sWHERE : String := "WHERE"
def sDATE : String := "DATE"
def sSELECT : String := "SELECT"
def sLIMIT : String := "LIMIT"
def sGROUPBY : String := "GROUP BY"
def sSELECTSTAR : String := "SELECT *"
def sCOUNTDISTINCT : String := "COUNT(DISTINCT"
def sAPPROXCD : String := "APPROX_COUNT_DISTINCT("
def sAPPROXCD2 : String := "APPROX_COUNT_DISTINCT(("
def sFROM : String := "FROM"
def sDateFilterAnd : String := "WHERE date >= DATE_SUB(CURRENT_DATE(), INTERVAL 30 DAY) AND"
def sDateFilterTail : String := " WHERE date >= DATE_SUB(CURRENT_DATE(), INTERVAL 30 DAY)"
def sLimitTail : String := " LIMIT 10000"

def descDateFilter : String := "Add date filter to reduce data scanned"
def descAddLimit : String := "Add LIMIT to prevent scanning entire table"
def descSelectStar : String := "Replace SELECT * with specific columns"
def descApprox : String := "Use APPROX functions for better performance"

def sDashboard : String := "dashboard"
def sReport : String := "report"
def sHistorical : String := "historical"
def sRealtime : String := "realtime"
def sFunnel : String := "funnel"
def sHintDash : String := "-- "
def sHintCacheTtl : String := "@cache_ttl="
def sHintInteractive : String := "@priority=INTERACTIVE"
def sHintBatch : String := "@priority=BATCH"
def sNL : String := "\n"

/-- Embedding of `QueryOptimizer._add_date_filter` (`query_optimizer.py` lines 177-187):
splice a 30-day bound after `WHERE` (case-sensitive textual replacement,
every occurrence), or append a whole `WHERE` clause when the word is
absent (the replacement of the word FROM by itself in that branch is a
no-op in the source). -/
def add_date_filter (query : String) : String :=
  if containsStr (upperStr query) sWHERE then
    replaceStr query sWHERE sDateFilterAnd
  else
    replaceStr query sFROM sFROM ++ sDateFilterTail

/-- Embedding of `QueryOptimizer._add_limit`: append ` LIMIT 10000` when no `LIMIT`
appears (case-insensitively). -/
def add_limit (query : String) : String :=
  if !containsStr (upperStr query) sLIMIT then query ++ sLimitTail else query

/-- Embedding of `QueryOptimizer._optimize_select_star`: prints a warning only; the
query text is returned unchanged. -/
def optimize_select_star (query : String) : String := query

/-- Embedding of `QueryOptimizer._use_approx_functions` (`query_optimizer.py` lines
201-209): case-sensitively rewrite `COUNT(DISTINCT` to
`APPROX_COUNT_DISTINCT(`, then collapse the doubled parenthesis. -/
def use_approx_functions (query : String) : String :=
  replaceStr (replaceStr query sCOUNTDISTINCT sAPPROXCD) sAPPROXCD2 sAPPROXCD

/-- One optimization rule: the case-insensitive check and the action from
`_load_optimization_rules` (the `pattern` field of the source dict is
unused by `optimize_query`). -/
structure Rule where
  check : String → Bool
  action : String → String
  description : String

/-- Embedding of `QueryOptimizer._load_optimization_rules` (`query_optimizer.py` lines
114-145), in source order. -/
def optimizationRules : List Rule :=
  [ { check := fun q => containsStr (upperStr q) sWHERE
        && !containsStr (upperStr q) sDATE
      action := add_date_filter
      description := descDateFilter }
  , { check := fun q => containsStr (upperStr q) sSELECT
        && !containsStr (upperStr q) sLIMIT
        && !containsStr (upperStr q) sGROUPBY
      action := add_limit
      description := descAddLimit }
  , { check := fun q => containsStr (upperStr q) sSELECTSTAR
      action := optimize_select_star
      description := descSelectStar }
  , { check := fun q => containsStr (upperStr q) sCOUNTDISTINCT
      action := use_approx_functions
      description := descApprox } ]

/-- Intermediate state of the rule loop in `optimize_query`. -/
structure RewriteState where
  text : String
  applied : List String
deriving DecidableEq

/-- One iteration of the rule loop: fire the rule when its check holds on
the current text, recording its description. -/
def applyRule (s : RewriteState) (r : Rule) : RewriteState :=
  if r.check s.text then
    { text := r.action s.text, applied := s.applied ++ [r.description] }
  else s

/-- The whole rule loop of `optimize_query`. -/
def runRules (query : String) : RewriteState :=
  optimizationRules.foldl applyRule { text := query, applied := [] }

/-- Embedding of `CACHE_PATTERNS.get(query_type, 3600)`. -/
def cachePattern (query_type : String) : ℕ :=
  if query_type = sDashboard then 3600
  else if query_type = sReport then 7200
  else if query_type = sHistorical then 86400
  else if query_type = sRealtime then 300
  else if query_type = sFunnel then 1800
  else 3600

/-- The `hints` list built by `_add_query_hints`: always the cache-TTL
hint, plus a priority hint for the dashboard/report query types. -/
def queryHints (query_type : String) : List String :=
  [sHintCacheTtl ++ toString (cachePattern query_type)]
    ++ (if query_type = sDashboard then [sHintInteractive]
        else if query_type = sReport then [sHintBatch]
        else [])

/-- Python newline join. -/
def joinNL : List String → String
  | [] => ""
  | [h] => h
  | h :: h2 :: rest => h ++ sNL ++ joinNL (h2 :: rest)

/-- Embedding of `QueryOptimizer._add_query_hints` (`query_optimizer.py` lines 211-229):
unconditionally **prepends** the formatted hint comment block.  (The hint
list is never empty, so the `if hints:` guard always takes the first
branch.) -/
def add_query_hints (query : String) (query_type : String) : String :=
  if (queryHints query_type).isEmpty then query
  else joinNL ((queryHints query_type).map (fun h => sHintDash ++ h)) ++ sNL ++ query

/-- Embedding of `QueryOptimizer.optimize_query` (`query_optimizer.py` lines 147-175):
run the rules in order, then prepend the hint block; returns the rewritten
text and the descriptions of the rules that fired. -/
def optimize_query (query : String) (query_type : String) :
    String × List String :=
  let s := runRules query
  (add_query_hints s.text query_type, s.applied)

/-- Embedding of `QueryOptimizer.get_cached_or_execute` (`query_optimizer.py` lines
268-303).  The external executor is a function from the (optimized) query
text to either a result payload or an error; `now` stands for the wall
clock during the call.  On a cache hit the payload is returned without
executing; on a miss the optimized query is executed and, only on success,
the result is cached under the category TTL. -/
def get_cached_or_execute (st : CacheState) (query : String)
    (executor : String → Except String String) (query_type : String)
    (params : Option Params) (now : ℤ) :
    Except String String × CacheState :=
  match cacheGet st query params now with
  | (some cached, st1) => (Except.ok cached, st1)
  | (none, st1) =>
    let opt := optimize_query query query_type
    match executor opt.1 with
    | Except.error e => (Except.error e, st1)
    | Except.ok result =>
      let cache_ttl : ℤ := (cachePattern query_type : ℤ)
      (Except.ok result, cacheSet st1 query result (some cache_ttl) params now)

/-- One `QueryCache.get` call: wall-clock time, query text, parameters. -/
def LookupCall : Type := ℤ × String × Option Params

/-- A sequence of `QueryCache.get` calls threaded through the cache
state. -/
def runLookups (st : CacheState) : List LookupCall → CacheState
  | [] => st
  | l :: ls => runLookups (cacheGet st l.2.1 l.2.2 l.1).2 ls

/-- A concrete lookup/store/lookup run on a fresh cache: a miss on `q1`,
then `set`, then a hit on `q1` one second later — one hit and one miss in
total. -/
def sampleLookupRun : CacheState :=
  (cacheGet (cacheSet ((cacheGet initialCache "q1" none 0).2) "q1"
    "payload" none none 0) "q1" none 1).2

end QueryOpt

namespace BigQueryOpt

open PyStr

/-- Class constants of `OptimizedBigQueryManager`. -/
def MAX_BYTES_PER_QUERY : ℤ := 100000000
def MAX_QUERIES_PER_DAY : ℕ := 1000
def MAX_DAILY_COST : ℚ := 5
def COST_PER_TB : ℚ := 5

/-- The dict returned by `estimate_query_cost`.  The success branch has no
`error` key and the failure branch has no `cost_warning` key; the absent
keys are modelled by `none` and by `false` (the caller reads the latter
with a dict get, where a missing key is falsy). -/
structure CostEstimateResult where
  error : Option String
  bytes_processed : ℤ
  estimated_cost : ℚ
  cost_warning : Bool
  within_limit : Bool
deriving DecidableEq

/-- Embedding of `OptimizedBigQueryManager.estimate_query_cost` (`bigquery_optimized.py`
lines 249-284).  The dry run against the warehouse is the external input
`dry_run`: `Except.ok b` means the backend reported `b` bytes to scan, and
`Except.error e` means the `try` block raised.  On success the monetary
estimate is `bytes / 1 TB * $5` (no sign check of any kind); on an
exception the method returns the zero-cost dict carrying the error
string. -/
def estimate_query_cost (dry_run : Except String ℤ) : CostEstimateResult :=
  match dry_run with
  | Except.ok bytes_processed =>
    { error := none
      bytes_processed := bytes_processed
      estimated_cost := (bytes_processed : ℚ) / 1000000000000 * COST_PER_TB
      cost_warning := decide ((bytes_processed : ℚ) / 1000000000000 * COST_PER_TB > 1 / 10)
      within_limit := decide (bytes_processed ≤ MAX_BYTES_PER_QUERY) }
  | Except.error e =>
    { error := some e
      bytes_processed := 0
      estimated_cost := 0
      cost_warning := false
      within_limit := false }

/-- Per-instance counters of `OptimizedBigQueryManager`. -/
structure BQState where
  queries_today : ℕ
  bytes_processed_today : ℤ
deriving DecidableEq, Repr

/-- What a successful `client.query(...).result()` round trip reports back:
the result rows (opaque payload) and the byte statistics, which BigQuery
may leave as `None` (read back with `or 0`). -/
structure ExecSuccess where
  rows : String
  total_bytes_billed : Option ℤ
  total_bytes_processed : Option ℤ
deriving DecidableEq

/-- Embedding of `OptimizedBigQueryManager._add_query_optimizations`: same two textual
rewrites as the first two optimizer rules, applied inline. -/
def add_query_optimizations (query : String) : String :=
  let q1 :=
    if containsStr (upperStr query) QueryOpt.sWHERE
        && !containsStr (upperStr query) QueryOpt.sDATE then
      replaceStr query QueryOpt.sWHERE QueryOpt.sDateFilterAnd
    else query
  if containsStr (upperStr q1) QueryOpt.sSELECT
      && !containsStr (upperStr q1) QueryOpt.sLIMIT
      && !containsStr (upperStr q1) QueryOpt.sGROUPBY then
    q1 ++ QueryOpt.sLimitTail
  else q1

/-- Message of the `raise` on the daily query-count pre-check. -/
def dailyLimitMsg : String := "Daily query limit (1000) exceeded"

/-- Message of the `raise` on the byte-limit pre-check. -/
def byteLimitMsg (bytes : ℤ) : String :=
  "Query exceeds byte limit: " ++ toString bytes ++ " bytes"

/-- Embedding of `OptimizedBigQueryManager.execute_query_with_cost_control`
(`bigquery_optimized.py` lines 286-344), with the two remote interactions
as explicit collaborators: `dry_run` is the outcome of the estimation dry
run and `executor` maps the optimized query text to the execution outcome.
A raised exception is an `Except.error` paired with the **unchanged**
state; only the success path bumps `queries_today` and
`bytes_processed_today` (cost tracking appends a `CostRecord` row out of
band and touches no counter). -/
def execute_query_with_cost_control (st : BQState) (query : String)
    (dry_run : Except String ℤ)
    (executor : String → Except String ExecSuccess) :
    Except String String × BQState :=
  if st.queries_today ≥ MAX_QUERIES_PER_DAY then
    (Except.error dailyLimitMsg, st)
  else
    let cost_estimate := estimate_query_cost dry_run
    if !cost_estimate.within_limit then
      (Except.error (byteLimitMsg cost_estimate.bytes_processed), st)
    else
      let optimized_query := add_query_optimizations query
      match executor optimized_query with
      | Except.error e => (Except.error e, st)
      | Except.ok r =>
        (Except.ok r.rows,
          { queries_today := st.queries_today + 1
            bytes_processed_today :=
              st.bytes_processed_today + r.total_bytes_billed.getD 0 })

end BigQueryOpt

/-! ## Claim theorems -/

open PyStr CostMon QueryOpt BigQueryOpt

/-! ### Helper lemmas about the Python string primitives -/

namespace PyStr

/-- If `pat` occurs in `l` then every character of `pat` occurs in `l`. -/
theorem mem_of_leadsWith {pat l : List Char} (h : leadsWith pat l = true)
    {c : Char} (hc : c ∈ pat) : c ∈ l := by
  induction pat generalizing l with
  | nil => cases hc
  | cons p ps ih =>
    cases l with
    | nil => simp [leadsWith] at h
    | cons a as =>
      simp only [leadsWith, Bool.and_eq_true, decide_eq_true_eq] at h
      rcases List.mem_cons.mp hc with h1 | h1
      · exact List.mem_cons.mpr (Or.inl (h1.trans h.1))
      · exact List.mem_cons.mpr (Or.inr (ih h.2 h1))

/-- If `pat` occurs as a substring of `l` then each of its characters is a
character of `l`. -/
theorem mem_of_hasSub {pat l : List Char} (h : hasSub pat l = true)
    {c : Char} (hc : c ∈ pat) : c ∈ l := by
  induction l with
  | nil =>
    cases pat with
    | nil => cases hc
    | cons p ps => simp [hasSub, leadsWith] at h
  | cons a as ih =>
    simp only [hasSub, Bool.or_eq_true] at h
    rcases h with h | h
    · exact mem_of_leadsWith h hc
    · exact List.mem_cons.mpr (Or.inr (ih h))

/-- Replacing a pattern that does not occur leaves the list unchanged. -/
theorem pyReplace_of_not_hasSub {old l : List Char} (new : List Char)
    (h : hasSub old l = false) : pyReplace old new l = l := by
  induction l with
  | nil => simp [pyReplace]
  | cons a as ih =>
    simp only [hasSub, Bool.or_eq_false_iff] at h
    rw [pyReplace, if_neg, ih h.2]
    intro hcon
    rw [hcon.2] at h
    simp at h

/-- String version of `pyReplace_of_not_hasSub`. -/
theorem replaceStr_of_not_containsStr {s old : String} (new : String)
    (h : containsStr s old = false) : replaceStr s old new = s := by
  unfold replaceStr
  rw [pyReplace_of_not_hasSub _ h]

theorem length_mk_data (s : String) : (String.mk s.data) = s := rfl

/-- Appending strings appends the underlying character lists. -/
theorem data_append (s t : String) : (s ++ t).data = s.data ++ t.data := rfl

/-- Length of a string concatenation. -/
theorem length_append_str (s t : String) :
    (s ++ t).length = s.length + t.length := by
  cases s with
  | mk a =>
    cases t with
    | mk b => exact List.length_append a b

end PyStr

/-- C1.  The claim states that `check_query_cost` rejects every request
while the emergency-stop flag is set.  The code never reads the flag: at a
state with `emergency_stop = True`, default thresholds and zero usage, a
10 MB request is **approved** — and in general the result of
`check_query_cost` on any state does not depend on `emergency_stop` at
all, so the flag blocks nothing in the pre-check. -/
theorem check_query_cost_ignores_emergency_stop :
    (check_query_cost { initialState with emergency_stop := true }
        10000000).approved = true
    ∧ ∀ (st : MonitorState) (b : ℤ),
        check_query_cost { st with emergency_stop := true } b
          = check_query_cost { st with emergency_stop := false } b := by
  constructor
  · norm_num [check_query_cost, estimatedCost, initialState, defaultThresholds]
  · intro st b
    cases st
    rfl

/-- C8.  `update_usage` never reads its `bytes_processed` argument: the
resulting ledger state (and alert list) is identical for any two byte
values, so no post-hoc limit check depends on the actual bytes
processed. -/
theorem update_usage_ignores_bytes :
    ∀ (st : MonitorState) (b1 b2 : ℤ) (c : ℚ),
      update_usage st b1 c = update_usage st b2 c := by
  intro st b1 b2 c
  rfl

/-- C4 counterexample.  A stop set *only* by a monthly-cost breach (day
cost $2 is under the $5 daily limit, month cost $151 exceeds the $150
monthly limit) **is** cleared by the day rollover: `reset_daily_counters`
sets `emergency_stop = False` unconditionally, while the monthly cost is
still over its limit. -/
theorem daily_reset_clears_monthly_breach_stop :
    ((update_usage { initialState with current_month_cost := 149 } 0
        2).1.emergency_stop = true)
    ∧ ((update_usage { initialState with current_month_cost := 149 } 0
        2).1.current_day_cost = 2)
    ∧ ((reset_daily_counters
          (update_usage { initialState with current_month_cost := 149 } 0
            2).1).emergency_stop = false)
    ∧ ((reset_daily_counters
          (update_usage { initialState with current_month_cost := 149 } 0
            2).1).current_month_cost = 151) := by
  refine ⟨?_, ?_, ?_, ?_⟩ <;>
    norm_num [update_usage, check_limits, reset_daily_counters, initialState,
      defaultThresholds]

/-- C4 (amended).  Once set, `emergency_stop` survives every
`update_usage` call and the hourly and monthly rollovers — but the daily
rollover clears it unconditionally, whatever breach set it.
`reset_monthly_counters` zeroes the monthly cost counter and never touches
the flag. -/
theorem emergency_stop_reset_discipline :
    ∀ (st : MonitorState) (b : ℤ) (c : ℚ),
      (st.emergency_stop = true →
        (update_usage st b c).1.emergency_stop = true)
      ∧ (reset_hourly_counters st).emergency_stop = st.emergency_stop
      ∧ (reset_monthly_counters st).emergency_stop = st.emergency_stop
      ∧ (reset_monthly_counters st).current_month_cost = 0
      ∧ (reset_daily_counters st).emergency_stop = false := by
  intro st b c
  refine ⟨?_, rfl, rfl, rfl, rfl⟩
  intro h
  simp [update_usage, check_limits, h]

/-- C4 witness: the amended facts at a concrete flagged state. -/
theorem emergency_stop_reset_discipline_witness :
    (update_usage { initialState with emergency_stop := true } 0
        0).1.emergency_stop = true
    ∧ (reset_monthly_counters
        { initialState with emergency_stop := true }).emergency_stop
      = true := by
  constructor
  · exact (emergency_stop_reset_discipline
      { initialState with emergency_stop := true } 0 0).1 rfl
  · exact (emergency_stop_reset_discipline
      { initialState with emergency_stop := true } 0 0).2.2.1

/-- C3.  `check_query_cost` rejects whenever the monetary estimate exceeds
the per-query hard limit, whenever the byte estimate exceeds the per-query
byte limit, or whenever the current-day cost plus the estimate would
exceed the daily limit — for every ledger state (usage counters and
configured thresholds). -/
theorem check_query_cost_rejects_over_limit :
    ∀ (st : MonitorState) (b : ℤ),
      (estimatedCost b > st.thresholds.query_cost_limit
        ∨ b > st.thresholds.bytes_per_query_limit
        ∨ st.current_day_cost + estimatedCost b > st.thresholds.daily_limit) →
      (check_query_cost st b).approved = false := by
  intro st b h
  unfold check_query_cost
  split_ifs with h1 h2 h3 h4
  · rfl
  · rfl
  · rfl
  all_goals
    rcases h with h | h | h
    · exact absurd h h1
    · exact absurd h h2
    · exact absurd h h3

/-- C3 witness, at the thresholds named by the examples of the claim: with the
default $1.00 per-query limit, a 202 GB request (estimate $1.01) is
rejected on a fresh ledger; with daily limit $5.00, current-day cost
$4.80 and a byte limit that is not the binding constraint, an estimate of
$0.30 (60 GB) is rejected and an estimate of $0.10 (20 GB) is approved. -/
theorem check_query_cost_rejects_over_limit_witness :
    (check_query_cost initialState 202000000000).approved = false
    ∧ (check_query_cost
        { initialState with
          thresholds :=
            { defaultThresholds with bytes_per_query_limit := 1000000000000 }
          current_day_cost := 24 / 5 } 60000000000).approved = false
    ∧ (check_query_cost
        { initialState with
          thresholds :=
            { defaultThresholds with bytes_per_query_limit := 1000000000000 }
          current_day_cost := 24 / 5 } 20000000000).approved = true := by
  refine ⟨?_, ?_, ?_⟩
  · exact check_query_cost_rejects_over_limit initialState 202000000000
      (Or.inl (by norm_num [estimatedCost, initialState, defaultThresholds]))
  · exact check_query_cost_rejects_over_limit _ 60000000000
      (Or.inr (Or.inr (by norm_num [estimatedCost, initialState,
        defaultThresholds])))
  · norm_num [check_query_cost, estimatedCost, initialState,
      defaultThresholds]

/-- C5 counterexample.  A negative byte count reported by the dry run is
**not** turned into a zero-cost estimate flagged as an estimation error:
`estimate_query_cost` computes a *negative* monetary estimate (here −$1
for −200 GB), sets no error, and even reports the query as within the
byte limit. -/
theorem estimate_negative_bytes_not_flagged :
    (estimate_query_cost (Except.ok (-200000000000))).estimated_cost = -1
    ∧ (estimate_query_cost (Except.ok (-200000000000))).error = none
    ∧ (estimate_query_cost (Except.ok (-200000000000))).within_limit
        = true := by
  refine ⟨?_, rfl, ?_⟩
  · norm_num [estimate_query_cost, COST_PER_TB]
  · norm_num [estimate_query_cost, MAX_BYTES_PER_QUERY]

/-- C5 (amended).  `estimate_query_cost` is a deterministic function of
the dry-run outcome.  A dry-run *exception* yields the zero-cost dict
flagged with the error string; a negative byte count is not flagged at
all: it yields a negative (not zero) monetary estimate with no error
set. -/
theorem estimate_query_cost_error_model :
    ∀ (e : String) (b : ℤ),
      estimate_query_cost (Except.error e)
        = { error := some e, bytes_processed := 0, estimated_cost := 0,
            cost_warning := false, within_limit := false }
      ∧ (b < 0 →
          (estimate_query_cost (Except.ok b)).estimated_cost < 0
          ∧ (estimate_query_cost (Except.ok b)).error = none) := by
  intro e b
  refine ⟨rfl, fun hb => ⟨?_, rfl⟩⟩
  show (b : ℚ) / 1000000000000 * COST_PER_TB < 0
  have hb2 : (b : ℚ) < 0 := by exact_mod_cast hb
  have h1 : (b : ℚ) / 1000000000000 < 0 :=
    div_neg_of_neg_of_pos hb2 (by norm_num)
  exact mul_neg_of_neg_of_pos h1 (by norm_num [COST_PER_TB])

/-- C5 witness: the amended facts at a concrete negative input. -/
theorem estimate_query_cost_error_model_witness :
    ((-1 : ℤ) < 0)
    ∧ (estimate_query_cost (Except.ok (-1))).estimated_cost < 0
    ∧ (estimate_query_cost (Except.ok (-1))).error = none := by
  refine ⟨by norm_num, ?_, ?_⟩
  · exact ((estimate_query_cost_error_model "e" (-1)).2 (by norm_num)).1
  · exact ((estimate_query_cost_error_model "e" (-1)).2 (by norm_num)).2

/-- C2 counterexample.  `optimize_query` is not idempotent: already on the
empty query (category `general`, on which no rule fires) the first pass
returns the hint comment block, and the second pass prepends the very same
hint block again, so `rewrite(rewrite(q)) ≠ rewrite(q)`. -/
theorem optimize_query_not_idempotent :
    (optimize_query ((optimize_query "" "general").1) "general").1
      ≠ (optimize_query "" "general").1 := by decide

/-- The hint list always carries the cache-TTL hint, so it is never
empty. -/
theorem queryHints_ne_empty (query_type : String) :
    (queryHints query_type).isEmpty = false := by
  unfold queryHints
  split_ifs <;> rfl

/-- The function `add_query_hints` strictly lengthens the query (by the hint block and
a newline), so it never returns its input. -/
theorem add_query_hints_ne (query query_type : String) :
    add_query_hints query query_type ≠ query := by
  unfold add_query_hints
  rw [queryHints_ne_empty query_type]
  simp only [Bool.false_eq_true, if_false]
  intro hcontra
  have hlen := congrArg String.length hcontra
  rw [PyStr.length_append_str, PyStr.length_append_str] at hlen
  have hNL : sNL.length = 1 := rfl
  omega

/-- C2 (amended).  The rule phase is idempotent-by-construction on every
text it leaves fixed, but `_add_query_hints` prepends its comment block
unconditionally, so `optimize_query` itself is never idempotent: whenever
the rules leave the first output unchanged (in particular for every
first-pass output whose checks no longer fire), the second pass returns
exactly the hint block prepended once more — a strictly different text. -/
theorem optimize_query_second_pass_prepends_hints :
    ∀ (q query_type : String),
      (runRules (optimize_query q query_type).1).text
          = (optimize_query q query_type).1 →
      (optimize_query (optimize_query q query_type).1 query_type).1
          = add_query_hints (optimize_query q query_type).1 query_type
      ∧ (optimize_query (optimize_query q query_type).1 query_type).1
          ≠ (optimize_query q query_type).1 := by
  intro q query_type h
  have key : (optimize_query (optimize_query q query_type).1 query_type).1
      = add_query_hints (optimize_query q query_type).1 query_type := by
    show add_query_hints
        (runRules (optimize_query q query_type).1).text query_type = _
    rw [h]
  exact ⟨key, fun hcon => add_query_hints_ne _ _ (key.symm.trans hcon)⟩

/-- C2 witness: the amended statement instantiated on the empty query. -/
theorem optimize_query_second_pass_prepends_hints_witness :
    ((runRules ((optimize_query "" "general").1)).text
        = (optimize_query "" "general").1)
    ∧ (optimize_query ((optimize_query "" "general").1) "general").1
        = add_query_hints ((optimize_query "" "general").1) "general" := by
  refine ⟨by decide, ?_⟩
  exact (optimize_query_second_pass_prepends_hints "" "general"
    (by decide)).1

/-- A prefix test for a concatenation also passes for the left part. -/
theorem leadsWith_of_append {a b l : List Char}
    (h : leadsWith (a ++ b) l = true) : leadsWith a l = true := by
  induction a generalizing l with
  | nil => rfl
  | cons x xs ih =>
    cases l with
    | nil => simp [leadsWith] at h
    | cons c cs =>
      simp only [List.cons_append, leadsWith, Bool.and_eq_true] at h ⊢
      exact ⟨h.1, ih h.2⟩

/-- If a concatenated pattern occurs as a substring, so does its left
part. -/
theorem hasSub_of_append {a b l : List Char}
    (h : hasSub (a ++ b) l = true) : hasSub a l = true := by
  induction l with
  | nil =>
    cases a with
    | nil => rfl
    | cons x xs => simp [hasSub, leadsWith] at h
  | cons c cs ih =>
    simp only [hasSub, Bool.or_eq_true] at h ⊢
    rcases h with h | h
    · exact Or.inl (leadsWith_of_append h)
    · exact Or.inr (ih h)

/-- A pattern containing an upper-case character never occurs
case-sensitively in an all-lower-case string. -/
theorem containsStr_none_of_lower {q pat : String}
    (hq : ∀ c ∈ q.data, c.isUpper = false) {c : Char} (hc : c ∈ pat.data)
    (hcu : c.isUpper = true) : containsStr q pat = false := by
  cases h : containsStr q pat with
  | false => rfl
  | true =>
    have hm : c ∈ q.data := mem_of_hasSub h hc
    rw [hq c hm] at hcu
    cases hcu

/-- C9.  The rule checks run on `query.upper()` while the `replace`-based
actions are case-sensitive: for any all-lower-case query that contains a
filtering clause (`where`, no date bound), an exact distinct count
(`count(distinct`), and no `select` (so the append-based LIMIT rule is
not in play), `optimize_query` reports both the date-filter and the
APPROX rewrite as applied, yet returns the query text unchanged apart
from the prepended hint comments. -/
theorem optimize_query_lowercase_reports_only :
    ∀ (q query_type : String),
      (∀ c ∈ q.data, c.isUpper = false) →
      containsStr (upperStr q) sWHERE = true →
      containsStr (upperStr q) sDATE = false →
      containsStr (upperStr q) sSELECT = false →
      containsStr (upperStr q) sCOUNTDISTINCT = true →
      optimize_query q query_type
        = (add_query_hints q query_type, [descDateFilter, descApprox]) := by
  intro q qt hlow hW hD hS hC
  have hqW : containsStr q sWHERE = false :=
    containsStr_none_of_lower hlow (c := 'W') (by decide) (by decide)
  have hqC : containsStr q sCOUNTDISTINCT = false :=
    containsStr_none_of_lower hlow (c := 'C') (by decide) (by decide)
  have hqA : containsStr q sAPPROXCD2 = false :=
    containsStr_none_of_lower hlow (c := 'A') (by decide) (by decide)
  have hSS : containsStr (upperStr q) sSELECTSTAR = false := by
    cases h : containsStr (upperStr q) sSELECTSTAR with
    | false => rfl
    | true =>
      have h2 : containsStr (upperStr q) sSELECT = true := by
        have hdata : sSELECTSTAR.data = sSELECT.data ++ [' ', '*'] := by
          decide
        unfold containsStr at h ⊢
        rw [hdata] at h
        exact hasSub_of_append h
      rw [hS] at h2
      cases h2
  have ha1 : add_date_filter q = q := by
    unfold add_date_filter
    rw [if_pos hW, replaceStr_of_not_containsStr _ hqW]
  have ha4 : use_approx_functions q = q := by
    unfold use_approx_functions
    rw [replaceStr_of_not_containsStr _ hqC, replaceStr_of_not_containsStr _ hqA]
  unfold optimize_query runRules optimizationRules
  simp [List.foldl, applyRule, hW, hD, hS, hC, hSS, ha1, ha4]

/-- C9 witness: a concrete all-lower-case query with a `where` clause and
an exact distinct count is reported as twice-optimized while its text
survives unchanged behind the hint block. -/
theorem optimize_query_lowercase_reports_only_witness :
    optimize_query "delete from t where count(distinct b) > 0" "general"
      = (add_query_hints "delete from t where count(distinct b) > 0"
          "general", [descDateFilter, descApprox]) :=
  optimize_query_lowercase_reports_only _ _ (by decide) (by decide)
    (by decide) (by decide) (by decide)

/-- Every `QueryCache.get` call increments exactly one of the two
counters. -/
theorem cacheGet_lookup_total (st : CacheState) (q : String)
    (p : Option Params) (n : ℤ) :
    (cacheGet st q p n).2.hit_count + (cacheGet st q p n).2.miss_count
      = st.hit_count + st.miss_count + 1 := by
  unfold cacheGet
  cases hfe : findEntry st.cache (get_cache_key q p) with
  | none =>
    simp [hfe]
    omega
  | some e =>
    simp only [hfe]
    split <;> simp <;> omega

/-- Over a whole lookup sequence, hits plus misses grow by exactly the
number of lookups. -/
theorem runLookups_lookup_total (ops : List LookupCall) (st : CacheState) :
    (runLookups st ops).hit_count + (runLookups st ops).miss_count
      = st.hit_count + st.miss_count + ops.length := by
  induction ops generalizing st with
  | nil => simp [runLookups]
  | cons l ls ih =>
    rw [runLookups, ih]
    have := cacheGet_lookup_total st l.2.1 l.2.2 l.1
    simp only [List.length_cons]
    omega

/-- C6 counterexample.  After one miss and one hit, `get_stats` reports a
hit rate of `50` — the hit **percentage** — not the ratio
`hits / (hits + misses) = 1/2` stated by the claim. -/
theorem query_cache_hit_rate_is_percentage :
    (get_stats sampleLookupRun).hits = 1
    ∧ (get_stats sampleLookupRun).misses = 1
    ∧ (get_stats sampleLookupRun).hit_rate
        ≠ ((get_stats sampleLookupRun).hits : ℚ)
            / (((get_stats sampleLookupRun).hits
                + (get_stats sampleLookupRun).misses : ℕ) : ℚ) := by
  have h1 : sampleLookupRun.hit_count = 1 := by decide
  have h2 : sampleLookupRun.miss_count = 1 := by decide
  refine ⟨h1, h2, ?_⟩
  simp only [get_stats, get_hit_rate, h1, h2]
  norm_num

/-- C6 (amended).  For every sequence of cache lookups, `get_stats`
reports the entry count, the hit and miss counters — which together grow
by exactly one per lookup, so they do count lookups — and a hit rate equal
to the **percentage** `hits / (hits + misses) * 100`, with rate `0` when
no lookup has occurred yet. -/
theorem get_stats_reports_lookup_counts :
    ∀ (st : CacheState) (ops : List LookupCall),
      (get_stats (runLookups st ops)).entries
          = (runLookups st ops).cache.length
      ∧ (get_stats (runLookups st ops)).hits = (runLookups st ops).hit_count
      ∧ (get_stats (runLookups st ops)).misses
          = (runLookups st ops).miss_count
      ∧ (get_stats (runLookups st ops)).hit_rate
          = (if (runLookups st ops).hit_count
                + (runLookups st ops).miss_count = 0 then 0
             else ((runLookups st ops).hit_count : ℚ)
                / (((runLookups st ops).hit_count
                    + (runLookups st ops).miss_count : ℕ) : ℚ) * 100)
      ∧ (runLookups st ops).hit_count + (runLookups st ops).miss_count
          = st.hit_count + st.miss_count + ops.length := by
  intro st ops
  exact ⟨rfl, rfl, rfl, rfl, runLookups_lookup_total ops st⟩

/-- C7.  Pre-check rejections and executor failures never record usage:
whenever the daily query-count gate or the byte-limit gate rejects, and
whenever the executor fails after approval, `execute_query_with_cost_control`
returns the error with the counters unchanged; and when the executor
passed to `get_cached_or_execute` fails on a cache miss, the error is
propagated verbatim and the cache state is exactly the post-lookup state —
no entry is stored. -/
theorem failures_record_no_usage :
    ∀ (bst : BQState) (q : String) (dr : Except String ℤ)
      (ex : String → Except String ExecSuccess) (e : String)
      (cst : CacheState) (query_type : String) (params : Option Params)
      (now : ℤ) (exq : String → Except String String),
      (bst.queries_today ≥ MAX_QUERIES_PER_DAY →
        execute_query_with_cost_control bst q dr ex
          = (Except.error dailyLimitMsg, bst))
      ∧ (bst.queries_today < MAX_QUERIES_PER_DAY →
          (estimate_query_cost dr).within_limit = false →
          execute_query_with_cost_control bst q dr ex
            = (Except.error
                (byteLimitMsg (estimate_query_cost dr).bytes_processed),
               bst))
      ∧ (bst.queries_today < MAX_QUERIES_PER_DAY →
          (estimate_query_cost dr).within_limit = true →
          ex (add_query_optimizations q) = Except.error e →
          execute_query_with_cost_control bst q dr ex
            = (Except.error e, bst))
      ∧ ((cacheGet cst q params now).1 = none →
          exq (optimize_query q query_type).1 = Except.error e →
          get_cached_or_execute cst q exq query_type params now
            = (Except.error e, (cacheGet cst q params now).2)) := by
  intro bst q dr ex e cst query_type params now exq
  refine ⟨?_, ?_, ?_, ?_⟩
  · intro h
    unfold execute_query_with_cost_control
    rw [if_pos h]
  · intro h1 h2
    simp [execute_query_with_cost_control, not_le.mpr h1, h2]
  · intro h1 h2 h3
    simp [execute_query_with_cost_control, not_le.mpr h1, h2, h3]
  · intro h1 h2
    unfold get_cached_or_execute
    rcases hg : cacheGet cst q params now with ⟨r, st1⟩
    rw [hg] at h1
    have h1r : r = none := h1
    subst h1r
    simp [h2]

/-- C7 witness: the four guarantees at concrete inputs — a full daily
quota, an over-limit 200 MB estimate, an executor that raises after
approval, and a failing executor behind a cache miss. -/
theorem failures_record_no_usage_witness :
    (execute_query_with_cost_control ⟨1000, 0⟩ "SELECT 1" (Except.ok 1000)
        (fun _ => Except.error "boom")
      = (Except.error dailyLimitMsg, ⟨1000, 0⟩))
    ∧ (execute_query_with_cost_control ⟨0, 0⟩ "SELECT 1"
          (Except.ok 200000000) (fun _ => Except.error "boom")
        = (Except.error (byteLimitMsg 200000000), ⟨0, 0⟩))
    ∧ (execute_query_with_cost_control ⟨0, 0⟩ "SELECT 1" (Except.ok 1000)
          (fun _ => Except.error "boom")
        = (Except.error "boom", ⟨0, 0⟩))
    ∧ (get_cached_or_execute initialCache "SELECT 1"
          (fun _ => Except.error "boom") "general" none 0
        = (Except.error "boom",
           (cacheGet initialCache "SELECT 1" none 0).2)) := by
  refine ⟨?_, ?_, ?_, ?_⟩
  · exact (failures_record_no_usage ⟨1000, 0⟩ "SELECT 1" (Except.ok 1000)
      (fun _ => Except.error "boom") "boom" initialCache "general" none 0
      (fun _ => Except.error "boom")).1 (by norm_num [MAX_QUERIES_PER_DAY])
  · exact (failures_record_no_usage ⟨0, 0⟩ "SELECT 1"
      (Except.ok 200000000) (fun _ => Except.error "boom") "boom"
      initialCache "general" none 0 (fun _ => Except.error "boom")).2.1
      (by norm_num [MAX_QUERIES_PER_DAY])
      (by norm_num [estimate_query_cost, MAX_BYTES_PER_QUERY])
  · exact (failures_record_no_usage ⟨0, 0⟩ "SELECT 1" (Except.ok 1000)
      (fun _ => Except.error "boom") "boom" initialCache "general" none 0
      (fun _ => Except.error "boom")).2.2.1
      (by norm_num [MAX_QUERIES_PER_DAY])
      (by norm_num [estimate_query_cost, MAX_BYTES_PER_QUERY]) rfl
  · exact (failures_record_no_usage ⟨0, 0⟩ "SELECT 1" (Except.ok 1000)
      (fun _ => Except.error "boom") "boom" initialCache "general" none 0
      (fun _ => Except.error "boom")).2.2.2 (by decide) rfl

/-- Looking up the key just stored always finds the stored entry. -/
theorem findEntry_insert_self (c : List (CacheKey × Entry)) (k : CacheKey)
    (e : Entry) : findEntry (insertKey c k e) k = some e := by
  induction c with
  | nil => simp [insertKey, findEntry]
  | cons kv rest ih =>
    by_cases h : kv.1 = k
    · simp [insertKey, findEntry, h]
    · simp [insertKey, findEntry, h, ih]

/-- C10.  `QueryCache.set` with `ttl = 0` falls back to the default TTL
(3600 s for a cache built with the default constructor argument): the
stored entry expires at `now + 3600`, and any `get` of the same
query/params within that window returns the payload. -/
theorem cache_set_zero_ttl_uses_default :
    ∀ (st : CacheState) (q d : String) (params : Option Params)
      (now t2 : ℤ),
      st.default_ttl = 3600 →
      t2 < now + 3600 →
      findEntry (cacheSet st q d (some 0) params now).cache
          (get_cache_key q params)
        = some { data := d, expires := now + 3600,
                 query_head := String.mk (q.data.take 100),
                 cached_at := now }
      ∧ (cacheGet (cacheSet st q d (some 0) params now) q params t2).1
        = some d := by
  intro st q d params now t2 httl ht
  have hset : (cacheSet st q d (some 0) params now).cache
      = insertKey st.cache (get_cache_key q params)
        { data := d, expires := now + 3600,
          query_head := String.mk (q.data.take 100), cached_at := now } := by
    unfold cacheSet
    simp [httl]
  constructor
  · rw [hset, findEntry_insert_self]
  · simp only [cacheGet, hset, findEntry_insert_self]
    simp [ht]

/-- C10 witness: on a fresh cache, `set` at time 0 with `ttl = 0` followed
by `get` at time 10 returns the payload. -/
theorem cache_set_zero_ttl_uses_default_witness :
    ((10 : ℤ) < 0 + 3600)
    ∧ (cacheGet (cacheSet initialCache "q" "v" (some 0) none 0) "q" none
        10).1 = some "v" :=
  ⟨by norm_num,
    (cache_set_zero_ttl_uses_default initialCache "q" "v" none 0 10 rfl
      (by norm_num)).2⟩
